import Mathlib

/-!
Shallow embedding of the quant-engine order-lifecycle and risk-control core
(`src/quant_engine`): data models (`models/order.py`, `models/position.py`,
`models/account.py`, `models/signal.py`), the risk manager (`core/risk.py`),
the order executor (`core/executor.py`), the trading scheduler
(`core/scheduler.py`) and the order store (`storage/repository.py`).

Modelling conventions:
* Python `Decimal` values are embedded as `ℚ`; the code's explicit
  `.quantize(Decimal("0.0001"))` calls (default rounding `ROUND_HALF_EVEN`)
  are modelled by `quantize4` below.  Configuration floats that the code
  converts via `Decimal(str(x))` are likewise taken as exact rationals.
* `datetime.now()` timestamps (`created_at` / `updated_at` / `executed_at`)
  are wall-clock reads with no behavioural content; the timestamp fields are
  elided from the embedded records.
* `uuid4()` ids are modelled as `ℕ` supplied by the caller.
* Broker calls that may raise are modelled as `Except String α` (the error
  carries `str(e)`); the surrounding `try/except` blocks become matches.
* The f-string interpolation inside human-readable result/log messages is
  elided: messages keep their static text only.  The `details` dict of
  `RiskCheckResult` is likewise elided; no claim depends on either.
-/

namespace QuantEngine

/-- `OrderDirection` enum from `models/order.py`. -/
inductive OrderDirection where
  | BUY
  | SELL
deriving DecidableEq, Repr

/-- `OrderType` enum from `models/order.py`. -/
inductive OrderType where
  | MARKET
  | LIMIT
deriving DecidableEq, Repr

/-- `OrderStatus` enum from `models/order.py`. -/
inductive OrderStatus where
  | PENDING
  | SUBMITTED
  | PARTIAL_FILLED
  | FILLED
  | CANCELLED
  | REJECTED
  | FAILED
deriving DecidableEq, Repr

/-- `Order` model from `models/order.py` (timestamps elided, ids as `ℕ`). -/
structure Order where
  id : ℕ
  symbol : String
  direction : OrderDirection
  quantity : ℕ
  price : Option ℚ
  order_type : OrderType
  status : OrderStatus
  filled_quantity : ℕ
  filled_price : Option ℚ
  broker_order_id : Option String
  signal_id : Option ℕ
  error_message : Option String
deriving DecidableEq, Repr

/-- Python truthiness of an `Optional[str]`: `None` and `""` are falsy. -/
def optStrTruthy : Option String → Bool
  | none => false
  | some s => s ≠ ""

/-- Python truthiness of an `Optional[Decimal]`: `None` and `Decimal("0")`
are falsy. -/
def optRatTruthy : Option ℚ → Bool
  | none => false
  | some q => q ≠ 0

/-- `Order.is_completed` (`models/order.py`): terminal iff FILLED, CANCELLED,
REJECTED or FAILED. -/
def Order.is_completed (o : Order) : Bool :=
  decide (o.status = .FILLED ∨ o.status = .CANCELLED ∨
          o.status = .REJECTED ∨ o.status = .FAILED)

/-- `Order.unfilled_quantity` (`models/order.py`). -/
def Order.unfilled_quantity (o : Order) : ℤ :=
  (o.quantity : ℤ) - o.filled_quantity

/-- `Order.update_status` (`models/order.py` lines 80–91): unconditionally
assigns the new status; the error message is stored only when truthy
(`if error_message:`). -/
def Order.update_status (o : Order) (status : OrderStatus)
    (error_message : Option String := none) : Order :=
  { o with
    status := status
    error_message :=
      if optStrTruthy error_message then error_message else o.error_message }

/-- One `update_status` call, as data: new status and optional message. -/
structure StatusCall where
  status : OrderStatus
  error_message : Option String
deriving Repr

/-- Apply a sequence of `update_status` calls in order. -/
def Order.apply_updates (o : Order) (calls : List StatusCall) : Order :=
  calls.foldl (fun acc c => acc.update_status c.status c.error_message) o

/-- A sample order sitting in the terminal status FILLED. -/
def filledOrder : Order :=
  { id := 1
    symbol := "000001"
    direction := .BUY
    quantity := 100
    price := some 10
    order_type := .LIMIT
    status := .FILLED
    filled_quantity := 100
    filled_price := some 10
    broker_order_id := some "B1"
    signal_id := none
    error_message := none }

/-- C1 (counterexample): `update_status` has no terminal-state guard.  An
order in the terminal status FILLED is transitioned back out of it by a
single `update_status SUBMITTED` call, contradicting the claim that no
sequence of `update_status` calls leaves a terminal status. -/
theorem order_update_status_escapes_terminal :
    filledOrder.is_completed = true ∧
    (filledOrder.apply_updates [⟨.SUBMITTED, none⟩]).status = .SUBMITTED ∧
    (filledOrder.apply_updates [⟨.SUBMITTED, none⟩]).is_completed = false := by
  decide

/-- C1 (amended): `update_status` assigns its status argument
unconditionally, so after any sequence of `update_status` calls the order's
status is the status of the last call (or the original status for the empty
sequence) — terminal statuses are not preserved. -/
theorem order_apply_updates_last_status (o : Order) (calls : List StatusCall) :
    (o.apply_updates calls).status = (calls.map StatusCall.status).getLastD o.status := by
  induction calls generalizing o with
  | nil => rfl
  | cons c rest ih =>
      have h1 : o.apply_updates (c :: rest)
          = (o.update_status c.status c.error_message).apply_updates rest := rfl
      rw [h1, ih]
      cases rest with
      | nil => simp [Order.update_status]
      | cons d ds => simp only [List.map_cons, List.getLastD_cons]

/-- `ROUND_HALF_EVEN` to an integer: the rounding used by Python `Decimal`
in its default context, applied by the code's explicit `quantize` calls. -/
def roundHalfEven (x : ℚ) : ℤ :=
  let n := ⌊x⌋
  let frac := x - n
  if frac < 1/2 then n
  else if 1/2 < frac then n + 1
  else if n % 2 = 0 then n else n + 1

/-- `Decimal.quantize(Decimal("0.0001"))`: round to 4 decimal places,
half to even. -/
def quantize4 (x : ℚ) : ℚ := (roundHalfEven (x * 10000) : ℚ) / 10000

/-- `Position` model from `models/position.py` (timestamps and id elided). -/
structure Position where
  symbol : String
  name : Option String
  quantity : ℤ
  available_quantity : ℤ
  frozen_quantity : ℤ
  avg_cost : ℚ
  current_price : ℚ
deriving DecidableEq, Repr

/-- `Position.market_value`: quantity × current price. -/
def Position.market_value (p : Position) : ℚ :=
  (p.quantity : ℚ) * p.current_price

/-- `Position.cost_value`: quantity × average cost. -/
def Position.cost_value (p : Position) : ℚ :=
  (p.quantity : ℚ) * p.avg_cost

/-- `Position.profit_loss`: market value − cost value. -/
def Position.profit_loss (p : Position) : ℚ :=
  p.market_value - p.cost_value

/-- `Position.profit_loss_ratio` (`models/position.py` lines 49–55): 0 when
cost value is 0, otherwise `(profit_loss / cost_value).quantize("0.0001")`. -/
def Position.profit_loss_ratio (p : Position) : ℚ :=
  if p.cost_value = 0 then 0
  else quantize4 (p.profit_loss / p.cost_value)

/-- `Account` model from `models/account.py` (timestamp elided). -/
structure Account where
  account_id : String
  total_asset : ℚ
  cash : ℚ
  frozen_cash : ℚ
  market_value : ℚ
deriving DecidableEq, Repr

/-- `Account.available_cash`: cash − frozen cash. -/
def Account.available_cash (a : Account) : ℚ := a.cash - a.frozen_cash

/-- `Account.position_ratio`: 0 when total asset is 0, otherwise the
quantized market-value / total-asset ratio. -/
def Account.position_ratio (a : Account) : ℚ :=
  if a.total_asset = 0 then 0
  else quantize4 (a.market_value / a.total_asset)

/-- `RiskConfig` from `utils/config.py` (floats taken as exact rationals,
matching the code's `Decimal(str(x))` conversions). -/
structure RiskConfig where
  enabled : Bool
  max_position_ratio : ℚ
  max_daily_loss_ratio : ℚ
  stop_loss_ratio : ℚ
  take_profit_ratio : ℚ
  max_holdings : ℕ
  max_order_amount : ℚ
deriving DecidableEq, Repr

/-- The `RiskConfig` defaults from `utils/config.py`. -/
def defaultRiskConfig : RiskConfig :=
  { enabled := true
    max_position_ratio := 1/5
    max_daily_loss_ratio := 1/20
    stop_loss_ratio := 2/25
    take_profit_ratio := 1/5
    max_holdings := 10
    max_order_amount := 100000 }

/-- `RiskCheckResult` from `core/risk.py` (the `details` dict is elided). -/
structure RiskCheckResult where
  passed : Bool
  rule : String
  message : String
deriving DecidableEq, Repr

/-- `RiskManager` state: configuration plus the `_initial_asset` /
`_daily_loss` instance fields set in `__init__` / `set_initial_asset`. -/
structure RiskManager where
  config : RiskConfig
  initial_asset : ℚ
  daily_loss : ℚ
deriving DecidableEq, Repr

/-- `RiskManager.set_initial_asset`: stores the baseline and resets the
daily-loss accumulator. -/
def RiskManager.set_initial_asset (rm : RiskManager) (asset : ℚ) : RiskManager :=
  { rm with initial_asset := asset, daily_loss := 0 }

/-- `RiskManager._check_order_amount` (`core/risk.py` lines 135–167): skip
when the order has no price, otherwise fail iff price × quantity exceeds
`max_order_amount`. -/
def RiskManager.check_order_amount (rm : RiskManager) (order : Order) :
    RiskCheckResult :=
  match order.price with
  | none => ⟨true, "order_amount", "市价单跳过金额检查"⟩
  | some p =>
      let amount := p * (order.quantity : ℚ)
      if amount > rm.config.max_order_amount then
        ⟨false, "order_amount", "单笔交易金额超过限制"⟩
      else
        ⟨true, "order_amount", "单笔交易金额检查通过"⟩

/-- `RiskManager._check_position_limit` (`core/risk.py` lines 169–223):
SELL orders skip; otherwise fail iff existing market value of the symbol
plus the order's notional exceeds total_asset × max_position_ratio. -/
def RiskManager.check_position_limit (rm : RiskManager) (order : Order)
    (account : Account) (positions : List Position) : RiskCheckResult :=
  if order.direction = .SELL then
    ⟨true, "position_limit", "卖出订单跳过持仓比例检查"⟩
  else
    let current_value :=
      match positions.find? (fun p => p.symbol == order.symbol) with
      | some p => p.market_value
      | none => (0 : ℚ)
    let order_value := (order.price.getD 0) * (order.quantity : ℚ)
    let total_value := current_value + order_value
    let max_value := account.total_asset * rm.config.max_position_ratio
    if total_value > max_value then
      ⟨false, "position_limit", "持仓将超过限制"⟩
    else
      ⟨true, "position_limit", "持仓比例检查通过"⟩

/-- `RiskManager._check_holdings_limit` (`core/risk.py` lines 225–265):
SELL orders skip; otherwise fail iff the order opens a new symbol while the
number of distinct held symbols is already at `max_holdings`. -/
def RiskManager.check_holdings_limit (rm : RiskManager) (order : Order)
    (positions : List Position) : RiskCheckResult :=
  if order.direction = .SELL then
    ⟨true, "holdings_limit", "卖出订单跳过持仓数量检查"⟩
  else
    let current_symbols :=
      ((positions.filter (fun p => 0 < p.quantity)).map Position.symbol).dedup
    let is_new_position := ¬ (order.symbol ∈ current_symbols)
    if is_new_position ∧ current_symbols.length ≥ rm.config.max_holdings then
      ⟨false, "holdings_limit", "持仓股票数量已达上限"⟩
    else
      ⟨true, "holdings_limit", "持仓数量检查通过"⟩

/-- `RiskManager._check_daily_loss` (`core/risk.py` lines 267–304): pass
when no baseline is set (`initial_asset ≤ 0`); otherwise fail iff the loss
ratio against the baseline strictly exceeds `max_daily_loss_ratio`. -/
def RiskManager.check_daily_loss (rm : RiskManager) (account : Account) :
    RiskCheckResult :=
  if rm.initial_asset ≤ 0 then
    ⟨true, "daily_loss", "未设置初始资产，跳过日内亏损检查"⟩
  else
    let daily_loss := rm.initial_asset - account.total_asset
    let loss_ratio := daily_loss / rm.initial_asset
    if loss_ratio > rm.config.max_daily_loss_ratio then
      ⟨false, "daily_loss", "日内亏损超过限制"⟩
    else
      ⟨true, "daily_loss", "日内亏损在限制范围内"⟩

/-- `RiskManager._check_stop_loss` (`core/risk.py` lines 306–343): skip when
quantity ≤ 0; otherwise fail iff the loss ratio (−profit_loss_ratio) is ≥
the configured `stop_loss_ratio`. -/
def RiskManager.check_stop_loss (rm : RiskManager) (position : Position) :
    RiskCheckResult :=
  if position.quantity ≤ 0 then
    ⟨true, "stop_loss", "无持仓，跳过止损检查"⟩
  else
    let loss_ratio := -position.profit_loss_ratio
    if loss_ratio ≥ rm.config.stop_loss_ratio then
      ⟨false, "stop_loss", "触发止损线"⟩
    else
      ⟨true, "stop_loss", "未触发止损"⟩

/-- `RiskManager._check_take_profit` (`core/risk.py` lines 345–382). -/
def RiskManager.check_take_profit (rm : RiskManager) (position : Position) :
    RiskCheckResult :=
  if position.quantity ≤ 0 then
    ⟨true, "take_profit", "无持仓，跳过止盈检查"⟩
  else
    if position.profit_loss_ratio ≥ rm.config.take_profit_ratio then
      ⟨false, "take_profit", "触发止盈线"⟩
    else
      ⟨true, "take_profit", "未触发止盈"⟩

/-- `RiskManager._check_single_position_ratio` (`core/risk.py`
lines 384–425). -/
def RiskManager.check_single_position_ratio (rm : RiskManager)
    (position : Position) (account : Account) : RiskCheckResult :=
  if account.total_asset ≤ 0 then
    ⟨true, "single_position_ratio", "总资产为0，跳过检查"⟩
  else
    let ratio := position.market_value / account.total_asset
    if ratio > rm.config.max_position_ratio then
      ⟨false, "single_position_ratio", "持仓比例超过限制"⟩
    else
      ⟨true, "single_position_ratio", "持仓比例正常"⟩

/-- `RiskManager.check_order` (`core/risk.py` lines 75–107): when disabled,
a passed result with rule "disabled"; otherwise build the list of the four
gating checks (amount, position ratio, holdings, daily loss, evaluated in
that order) and return the first failing one, or a passed "all" result. -/
def RiskManager.check_order (rm : RiskManager) (order : Order)
    (account : Account) (positions : List Position) : RiskCheckResult :=
  if ¬ rm.config.enabled then
    ⟨true, "disabled", "风控已禁用"⟩
  else
    let checks := [rm.check_order_amount order,
                   rm.check_position_limit order account positions,
                   rm.check_holdings_limit order positions,
                   rm.check_daily_loss account]
    match checks.find? (fun r => !r.passed) with
    | some r => r
    | none => ⟨true, "all", "所有风控检查通过"⟩

/-- `RiskManager.check_all` (`core/risk.py` lines 109–133). -/
def RiskManager.check_all (rm : RiskManager) (account : Account)
    (positions : List Position) : List RiskCheckResult :=
  rm.check_daily_loss account ::
    (positions.flatMap (fun p =>
      [rm.check_stop_loss p, rm.check_take_profit p,
       rm.check_single_position_ratio p account]))

/-- The typed risk errors from `utils/exceptions.py`. -/
inductive RiskError where
  | PositionLimitError (message : String)
  | DailyLossLimitError (message : String)
  | StopLossError (message : String)
  | RiskControlError (message : String) (rule : String)
deriving DecidableEq, Repr

/-- `RiskManager.validate_order_or_raise` (`core/risk.py` lines 427–453):
`none` when the check passes, otherwise the typed error selected by the
failing rule identifier. -/
def RiskManager.validate_order_or_raise (rm : RiskManager) (order : Order)
    (account : Account) (positions : List Position) : Option RiskError :=
  let result := rm.check_order order account positions
  if result.passed then none
  else some
    (if result.rule = "position_limit" then .PositionLimitError result.message
     else if result.rule = "daily_loss" then .DailyLossLimitError result.message
     else if result.rule = "stop_loss" then .StopLossError result.message
     else .RiskControlError result.message result.rule)

/-- Scenario-C-style position: 5000 shares, cost 10, price 9 — a 10% loss. -/
def lossPosition : Position :=
  { symbol := "000001"
    name := none
    quantity := 5000
    available_quantity := 5000
    frozen_quantity := 0
    avg_cost := 10
    current_price := 9 }

/-- A position whose exact P/L ratio 1/3 is not representable at 4 decimal
places: 3 shares at cost 3, price 4. -/
def thirdRatioPosition : Position :=
  { symbol := "000002"
    name := none
    quantity := 3
    available_quantity := 3
    frozen_quantity := 0
    avg_cost := 3
    current_price := 4 }

/-- A risk manager with the default configuration and no daily baseline. -/
def rmDefault : RiskManager :=
  { config := defaultRiskConfig, initial_asset := 0, daily_loss := 0 }

/-- The default risk manager with the master switch off. -/
def rmDisabled : RiskManager :=
  { config := { defaultRiskConfig with enabled := false },
    initial_asset := 0, daily_loss := 0 }

/-- C3 (counterexample): `profit_loss_ratio` quantizes the quotient to four
decimal places (half-even), so for a position with market value 12 and cost
value 9 it returns 0.3333 rather than the exact ratio 1/3. -/
theorem profit_loss_ratio_not_exact :
    thirdRatioPosition.profit_loss_ratio = 3333/10000 ∧
    (thirdRatioPosition.market_value - thirdRatioPosition.cost_value) /
        thirdRatioPosition.cost_value = 1/3 ∧
    thirdRatioPosition.profit_loss_ratio ≠
      (thirdRatioPosition.market_value - thirdRatioPosition.cost_value) /
        thirdRatioPosition.cost_value := by
  refine ⟨?_, ?_, ?_⟩ <;>
    norm_num [thirdRatioPosition, Position.profit_loss_ratio,
      Position.profit_loss, Position.market_value, Position.cost_value,
      quantize4, roundHalfEven]

/-- C3 (amended): `profit_loss_ratio` is 0 when the cost value is 0 and
otherwise equals (market_value − cost_value) / cost_value rounded to four
decimal places (half-even); and every position with positive quantity whose
`profit_loss_ratio` is ≤ −stop_loss_ratio makes `_check_stop_loss` return
passed = false with rule "stop_loss". -/
theorem profit_loss_ratio_and_stop_loss (p : Position) (rm : RiskManager) :
    (p.cost_value = 0 → p.profit_loss_ratio = 0) ∧
    (p.cost_value ≠ 0 →
      p.profit_loss_ratio =
        quantize4 ((p.market_value - p.cost_value) / p.cost_value)) ∧
    (0 < p.quantity → p.profit_loss_ratio ≤ -rm.config.stop_loss_ratio →
      (rm.check_stop_loss p).passed = false ∧
      (rm.check_stop_loss p).rule = "stop_loss") := by
  refine ⟨fun h => by simp [Position.profit_loss_ratio, h], fun h => by
    simp [Position.profit_loss_ratio, Position.profit_loss, h], fun hq hr => ?_⟩
  have hq' : ¬ p.quantity ≤ 0 := by omega
  have hloss : -p.profit_loss_ratio ≥ rm.config.stop_loss_ratio := by linarith
  simp [RiskManager.check_stop_loss, hq', hloss]

/-- C3 (witness): the amended theorem applied to the Scenario-C position
(5000 shares, cost 10, price 9) under the default 8% stop-loss: the ratio is
exactly −0.1 and the stop-loss check fails. -/
theorem profit_loss_ratio_and_stop_loss_witness :
    lossPosition.cost_value ≠ 0 ∧
    lossPosition.profit_loss_ratio =
      quantize4 ((lossPosition.market_value - lossPosition.cost_value) /
        lossPosition.cost_value) ∧
    0 < lossPosition.quantity ∧
    lossPosition.profit_loss_ratio ≤ -rmDefault.config.stop_loss_ratio ∧
    (rmDefault.check_stop_loss lossPosition).passed = false ∧
    (rmDefault.check_stop_loss lossPosition).rule = "stop_loss" :=
  ⟨by norm_num [lossPosition, Position.cost_value],
   (profit_loss_ratio_and_stop_loss lossPosition rmDefault).2.1
     (by norm_num [lossPosition, Position.cost_value]),
   by norm_num [lossPosition],
   by norm_num [lossPosition, rmDefault, defaultRiskConfig,
     Position.profit_loss_ratio, Position.profit_loss, Position.market_value,
     Position.cost_value, quantize4, roundHalfEven],
   (profit_loss_ratio_and_stop_loss lossPosition rmDefault).2.2
     (by norm_num [lossPosition])
     (by norm_num [lossPosition, rmDefault, defaultRiskConfig,
       Position.profit_loss_ratio, Position.profit_loss, Position.market_value,
       Position.cost_value, quantize4, roundHalfEven])⟩

/-- A MARKET-typed order that nevertheless carries a price of 200 for 1000
shares (the `Order` model does not tie `price` to `order_type`). -/
def marketPricedOrder : Order :=
  { id := 2
    symbol := "000003"
    direction := .BUY
    quantity := 1000
    price := some 200
    order_type := .MARKET
    status := .PENDING
    filled_quantity := 0
    filled_price := none
    broker_order_id := none
    signal_id := none
    error_message := none }

/-- A large account used as a neutral input to `check_order`. -/
def richAccount : Account :=
  { account_id := "A1"
    total_asset := 10000000
    cash := 10000000
    frozen_cash := 0
    market_value := 0 }

/-- C6 (counterexample): `_check_order_amount` keys on the presence of a
price, not on the order type.  A MARKET order that carries price 200 ×
quantity 1000 = 200000 > the default 100000 cap fails `check_order` with
rule "order_amount", contradicting "for every MARKET order the order-amount
check always passes". -/
theorem market_order_amount_check_can_fail :
    marketPricedOrder.order_type = .MARKET ∧
    (rmDefault.check_order marketPricedOrder richAccount []).passed = false ∧
    (rmDefault.check_order marketPricedOrder richAccount []).rule =
      "order_amount" := by
  refine ⟨rfl, ?_, ?_⟩ <;>
    norm_num [rmDefault, defaultRiskConfig, marketPricedOrder, richAccount,
      RiskManager.check_order, RiskManager.check_order_amount, List.find?]

/-- C6 (amended): with risk enabled, any order carrying a price p with
p × quantity > max_order_amount makes `check_order` return passed = false
with rule "order_amount", regardless of order type; and any order without a
price (as every engine-built MARKET order) always passes the order-amount
check. -/
theorem check_order_amount_by_price (rm : RiskManager) (order : Order)
    (account : Account) (positions : List Position) :
    (∀ p : ℚ, rm.config.enabled = true → order.price = some p →
      p * (order.quantity : ℚ) > rm.config.max_order_amount →
      (rm.check_order order account positions).passed = false ∧
      (rm.check_order order account positions).rule = "order_amount") ∧
    (order.price = none → (rm.check_order_amount order).passed = true) := by
  constructor
  · intro p hen hp hgt
    have hfail : rm.check_order_amount order =
        ⟨false, "order_amount", "单笔交易金额超过限制"⟩ := by
      simp [RiskManager.check_order_amount, hp, hgt]
    have : rm.check_order order account positions =
        ⟨false, "order_amount", "单笔交易金额超过限制"⟩ := by
      simp [RiskManager.check_order, hen, List.find?, hfail]
    simp [this]
  · intro hp
    simp [RiskManager.check_order_amount, hp]

/-- C6 (witness): the amended theorem applied to the over-limit priced order
(200 × 1000 > 100000) and to a price-less order. -/
theorem check_order_amount_by_price_witness :
    rmDefault.config.enabled = true ∧
    marketPricedOrder.price = some 200 ∧
    (200 : ℚ) * (marketPricedOrder.quantity : ℚ) >
      rmDefault.config.max_order_amount ∧
    (rmDefault.check_order marketPricedOrder richAccount []).passed = false ∧
    (rmDefault.check_order marketPricedOrder richAccount []).rule =
      "order_amount" ∧
    (rmDefault.check_order_amount
      { marketPricedOrder with price := none }).passed = true :=
  ⟨rfl, rfl,
   by norm_num [marketPricedOrder, rmDefault, defaultRiskConfig],
   (check_order_amount_by_price rmDefault marketPricedOrder richAccount []).1
     200 rfl rfl
     (by norm_num [marketPricedOrder, rmDefault, defaultRiskConfig]) |>.1,
   (check_order_amount_by_price rmDefault marketPricedOrder richAccount []).1
     200 rfl rfl
     (by norm_num [marketPricedOrder, rmDefault, defaultRiskConfig]) |>.2,
   (check_order_amount_by_price rmDefault
     { marketPricedOrder with price := none } richAccount []).2 rfl⟩

/-- C7: when risk is disabled, `check_order` returns a passed result with
rule "disabled" for every order/account/positions; when enabled it returns
the earliest failing result among [order-amount, position-ratio, holdings,
daily-loss] in that fixed order, or a passed "all" result when every check
passes. -/
theorem check_order_fail_fast (rm : RiskManager) (order : Order)
    (account : Account) (positions : List Position) :
    (rm.config.enabled = false →
      rm.check_order order account positions =
        ⟨true, "disabled", "风控已禁用"⟩) ∧
    (rm.config.enabled = true →
      rm.check_order order account positions =
        (let r1 := rm.check_order_amount order
         let r2 := rm.check_position_limit order account positions
         let r3 := rm.check_holdings_limit order positions
         let r4 := rm.check_daily_loss account
         if r1.passed = false then r1
         else if r2.passed = false then r2
         else if r3.passed = false then r3
         else if r4.passed = false then r4
         else ⟨true, "all", "所有风控检查通过"⟩)) := by
  constructor
  · intro h
    simp [RiskManager.check_order, h]
  · intro h
    cases h1 : (rm.check_order_amount order).passed <;>
      cases h2 : (rm.check_position_limit order account positions).passed <;>
        cases h3 : (rm.check_holdings_limit order positions).passed <;>
          cases h4 : (rm.check_daily_loss account).passed <;>
            simp [RiskManager.check_order, h, List.find?, h1, h2, h3, h4]

/-- C7 (witness): the theorem applied to a disabled manager (rule
"disabled") and to the default manager on an in-limit order, where every
check passes and the result is the "all" aggregate. -/
theorem check_order_fail_fast_witness :
    rmDisabled.config.enabled = false ∧
    rmDisabled.check_order marketPricedOrder richAccount [] =
      ⟨true, "disabled", "风控已禁用"⟩ ∧
    rmDefault.config.enabled = true ∧
    rmDefault.check_order filledOrder richAccount [] =
      ⟨true, "all", "所有风控检查通过"⟩ :=
  ⟨rfl,
   (check_order_fail_fast rmDisabled marketPricedOrder richAccount []).1 rfl,
   rfl,
   ((check_order_fail_fast rmDefault filledOrder richAccount []).2 rfl).trans
     (by norm_num [rmDefault, defaultRiskConfig, filledOrder, richAccount,
       RiskManager.check_order_amount, RiskManager.check_position_limit,
       RiskManager.check_holdings_limit, RiskManager.check_daily_loss,
       Position.market_value, List.find?] <;> decide)⟩

/-- A wall-clock time of day, mirroring Python `datetime.time` (whose
comparison is lexicographic on hour, minute, second, microsecond — for
in-range fields this equals comparison of the microsecond-of-day count). -/
structure TimeOfDay where
  hour : ℕ
  minute : ℕ
  second : ℕ
  microsecond : ℕ
deriving DecidableEq, Repr

/-- A `datetime.time` as a microsecond-of-day count, the order used by
Python time comparison for in-range fields. -/
def TimeOfDay.toMicros (t : TimeOfDay) : ℕ :=
  ((t.hour * 60 + t.minute) * 60 + t.second) * 1000000 + t.microsecond

/-- Python `time` comparison `a <= b`. -/
def TimeOfDay.le (a b : TimeOfDay) : Bool :=
  a.toMicros ≤ b.toMicros

/-- An instant, as `datetime.weekday()` (Monday = 0 … Sunday = 6) together
with its time of day. -/
structure Instant where
  weekday : Fin 7
  time : TimeOfDay
deriving DecidableEq, Repr

/-- An `HH:MM` configuration string, already split into its two fields
(`_parse_time` in `core/scheduler.py` takes hour and minute only). -/
structure ClockHM where
  hour : ℕ
  minute : ℕ
deriving DecidableEq, Repr

/-- `_parse_time`: an `HH:MM` string becomes a `time(h, m)` with zero
seconds and microseconds. -/
def ClockHM.toTime (c : ClockHM) : TimeOfDay :=
  ⟨c.hour, c.minute, 0, 0⟩

/-- `TradingHoursConfig` from `utils/config.py`. -/
structure TradingHoursConfig where
  morning_start : ClockHM
  morning_end : ClockHM
  afternoon_start : ClockHM
  afternoon_end : ClockHM
deriving DecidableEq, Repr

/-- `SchedulerConfig` from `utils/config.py`. -/
structure SchedulerConfig where
  trading_hours : TradingHoursConfig
  signal_fetch_time : ClockHM
  order_execute_time : ClockHM
deriving DecidableEq, Repr

/-- `TradingScheduler.__init__` (`core/scheduler.py`): the parsed window
bounds and point times. -/
structure TradingScheduler where
  morning_start : TimeOfDay
  morning_end : TimeOfDay
  afternoon_start : TimeOfDay
  afternoon_end : TimeOfDay
  signal_fetch_time : TimeOfDay
  order_execute_time : TimeOfDay
deriving DecidableEq, Repr

/-- Build a `TradingScheduler` from a `SchedulerConfig`, as `__init__`
does via `_parse_time`. -/
def TradingScheduler.ofConfig (cfg : SchedulerConfig) : TradingScheduler :=
  { morning_start := cfg.trading_hours.morning_start.toTime
    morning_end := cfg.trading_hours.morning_end.toTime
    afternoon_start := cfg.trading_hours.afternoon_start.toTime
    afternoon_end := cfg.trading_hours.afternoon_end.toTime
    signal_fetch_time := cfg.signal_fetch_time.toTime
    order_execute_time := cfg.order_execute_time.toTime }

/-- `TradingScheduler.is_trading_time` (`core/scheduler.py` lines 54–75):
false on weekday ≥ 5, otherwise true iff the time of day lies in the
morning window or the afternoon window, both bounds inclusive. -/
def TradingScheduler.is_trading_time (sch : TradingScheduler)
    (dt : Instant) : Bool :=
  if dt.weekday.val ≥ 5 then false
  else
    let current_time := dt.time
    let in_morning :=
      sch.morning_start.le current_time && current_time.le sch.morning_end
    let in_afternoon :=
      sch.afternoon_start.le current_time && current_time.le sch.afternoon_end
    in_morning || in_afternoon

/-- `TradingScheduler.is_signal_fetch_time` (`core/scheduler.py`): exact
hour-and-minute match. -/
def TradingScheduler.is_signal_fetch_time (sch : TradingScheduler)
    (dt : Instant) : Bool :=
  dt.time.hour == sch.signal_fetch_time.hour &&
    dt.time.minute == sch.signal_fetch_time.minute

/-- C9: `is_trading_time` is false when the instant's weekday is Saturday
or Sunday (weekday ≥ 5); on a trading day it is true iff the time of day
lies within the configured morning window or the configured afternoon
window, with both window bounds inclusive. -/
theorem is_trading_time_windows (cfg : SchedulerConfig) (dt : Instant) :
    (TradingScheduler.ofConfig cfg).is_trading_time dt = true ↔
      (dt.weekday.val < 5 ∧
        (((cfg.trading_hours.morning_start.toTime.toMicros ≤ dt.time.toMicros) ∧
          (dt.time.toMicros ≤ cfg.trading_hours.morning_end.toTime.toMicros)) ∨
         ((cfg.trading_hours.afternoon_start.toTime.toMicros ≤ dt.time.toMicros) ∧
          (dt.time.toMicros ≤ cfg.trading_hours.afternoon_end.toTime.toMicros)))) := by
  by_cases hw : dt.weekday.val ≥ 5 <;>
    simp [TradingScheduler.is_trading_time, TradingScheduler.ofConfig, hw,
      TimeOfDay.le] <;>
    omega

/-- The order table of `storage/repository.py`, as the list of stored rows
(the `created_at`-descending query order is not contractual; the list order
stands in for it). -/
structure OrderStore where
  orders : List Order
deriving DecidableEq, Repr

/-- `OrderRepository.get_by_id`: first row with the given id. -/
def OrderStore.get_by_id (st : OrderStore) (order_id : ℕ) : Option Order :=
  st.orders.find? (fun o => o.id == order_id)

/-- The update half of `OrderRepository.save` (`repository.py` lines
98–105): an existing row receives only the status, fill, broker-id and
error-message fields of the incoming order. -/
def saveMergeRow (existing incoming : Order) : Order :=
  { existing with
    status := incoming.status
    filled_quantity := incoming.filled_quantity
    filled_price := incoming.filled_price
    broker_order_id := incoming.broker_order_id
    error_message := incoming.error_message }

/-- `OrderRepository.save`: upsert by id — update the matching row in place,
or insert a new row. -/
def OrderStore.save (st : OrderStore) (o : Order) : OrderStore :=
  if st.orders.any (fun x => x.id == o.id) then
    ⟨st.orders.map (fun x => if x.id == o.id then saveMergeRow x o else x)⟩
  else
    ⟨st.orders ++ [o]⟩

/-- Active per `OrderRepository.get_active_orders`: SUBMITTED or
PARTIAL_FILLED. -/
def Order.is_active (o : Order) : Bool :=
  decide (o.status = .SUBMITTED ∨ o.status = .PARTIAL_FILLED)

/-- `OrderRepository.get_active_orders`. -/
def OrderStore.get_active_orders (st : OrderStore) : List Order :=
  st.orders.filter Order.is_active

/-- `OrderResult` from `adapters/broker/base.py`. -/
structure OrderResult where
  success : Bool
  broker_order_id : Option String
  message : Option String
deriving DecidableEq, Repr

/-- The broker collaborator (`adapters/broker/base.py`), as response
functions; `Except String` models a raised exception carrying `str(e)`. -/
structure BrokerModel where
  submit_order : Order → Except String OrderResult
  cancel_order : String → Except String Bool
  query_order : String → Except String (Option Order)
  get_positions : List Position
  get_account : Account

/-- `OrderExecutor.sync_order_status` (`core/executor.py` lines 218–243):
look the order up; skip when absent or without a (truthy) broker id; query
the broker, swallowing exceptions; on a successful non-empty query overwrite
status, filled quantity and filled price and save; always return the
(possibly stale) order when it exists. -/
def sync_order_status (broker : BrokerModel) (st : OrderStore)
    (order_id : ℕ) : OrderStore × Option Order :=
  match st.get_by_id order_id with
  | none => (st, none)
  | some order =>
    match order.broker_order_id with
    | none => (st, some order)
    | some bid =>
      if bid = "" then (st, some order)
      else
        match broker.query_order bid with
        | .error _ => (st, some order)
        | .ok none => (st, some order)
        | .ok (some broker_order) =>
            let updated := { order with
              status := broker_order.status
              filled_quantity := broker_order.filled_quantity
              filled_price := broker_order.filled_price }
            (st.save updated, some updated)

/-- The per-order effect of one reconciliation step on the in-memory order:
unchanged when it has no truthy broker id, when the query raises, or when
the broker reports nothing; otherwise the broker-reported status/fill
fields are copied in. -/
def refreshOne (broker : BrokerModel) (o : Order) : Order :=
  match o.broker_order_id with
  | none => o
  | some bid =>
    if bid = "" then o
    else
      match broker.query_order bid with
      | .error _ => o
      | .ok none => o
      | .ok (some broker_order) =>
          { o with
            status := broker_order.status
            filled_quantity := broker_order.filled_quantity
            filled_price := broker_order.filled_price }

/-- The loop body of `sync_all_active_orders`: reconcile each listed order
in turn against the evolving store, collecting every non-`none` result. -/
def syncLoop (broker : BrokerModel) :
    OrderStore → List Order → OrderStore × List Order
  | st, [] => (st, [])
  | st, o :: rest =>
    let res := sync_order_status broker st o.id
    let tail := syncLoop broker res.1 rest
    match res.2 with
    | some updated => (tail.1, updated :: tail.2)
    | none => tail

/-- `OrderExecutor.sync_all_active_orders` (`core/executor.py` lines
245–261): reconcile every active order, appending each non-`none`
`sync_order_status` result. -/
def sync_all_active_orders (broker : BrokerModel) (st : OrderStore) :
    OrderStore × List Order :=
  syncLoop broker st st.get_active_orders

theorem saveMergeRow_id (existing incoming : Order) :
    (saveMergeRow existing incoming).id = existing.id := rfl

theorem refreshOne_id (broker : BrokerModel) (o : Order) :
    (refreshOne broker o).id = o.id := by
  unfold refreshOne
  cases o.broker_order_id with
  | none => rfl
  | some bid =>
      by_cases he : bid = ""
      · simp [he]
      · simp only [he, if_false]
        cases broker.query_order bid with
        | error e => rfl
        | ok ores => cases ores <;> rfl

theorem find?_id_map_save (u : Order) (x : ℕ) (h : x ≠ u.id)
    (l : List Order) :
    List.find? (fun o => o.id == x)
        (l.map (fun e => if e.id == u.id then saveMergeRow e u else e))
      = List.find? (fun o => o.id == x) l := by
  induction l with
  | nil => rfl
  | cons e rest ih =>
      rw [List.map_cons]
      by_cases hid : e.id = u.id
      · rw [if_pos (by simp [hid]),
          List.find?_cons_of_neg _ (by simp [saveMergeRow_id, hid, Ne.symm h]),
          List.find?_cons_of_neg _ (by simp [hid, Ne.symm h]), ih]
      · rw [if_neg (by simp [hid])]
        by_cases hex : e.id = x
        · rw [List.find?_cons_of_pos _ (by simp [hex]),
            List.find?_cons_of_pos _ (by simp [hex])]
        · rw [List.find?_cons_of_neg _ (by simp [hex]),
            List.find?_cons_of_neg _ (by simp [hex]), ih]

theorem get_by_id_save_ne (st : OrderStore) (u : Order) (x : ℕ)
    (h : x ≠ u.id) : (st.save u).get_by_id x = st.get_by_id x := by
  unfold OrderStore.save OrderStore.get_by_id
  by_cases ha : st.orders.any (fun y => y.id == u.id)
  · rw [if_pos ha]
    exact find?_id_map_save u x h st.orders
  · rw [if_neg ha, List.find?_append,
      show List.find? (fun o => o.id == x) [u] = none by simp [Ne.symm h],
      Option.or_none]

theorem find?_id_map_save_self (u : Order) (l : List Order)
    (hl : l.any (fun y => y.id == u.id) = true) :
    ∃ r, List.find? (fun o => o.id == u.id)
        (l.map (fun e => if e.id == u.id then saveMergeRow e u else e))
      = some r ∧ r.status = u.status ∧ r.error_message = u.error_message := by
  induction l with
  | nil => cases hl
  | cons e rest ih =>
      by_cases hid : e.id = u.id
      · refine ⟨saveMergeRow e u, ?_, rfl, rfl⟩
        rw [List.map_cons, if_pos (by simp [hid]),
          List.find?_cons_of_pos _ (by simp [saveMergeRow_id, hid])]
      · have hl' : rest.any (fun y => y.id == u.id) = true := by
          simpa [List.any_cons, hid] using hl
        obtain ⟨r, hr, h1, h2⟩ := ih hl'
        refine ⟨r, ?_, h1, h2⟩
        rw [List.map_cons, if_neg (by simp [hid]),
          List.find?_cons_of_neg _ (by simp [hid]), hr]

theorem get_by_id_save_self (st : OrderStore) (u : Order) :
    ∃ r, (st.save u).get_by_id u.id = some r ∧
      r.status = u.status ∧ r.error_message = u.error_message := by
  unfold OrderStore.save OrderStore.get_by_id
  by_cases ha : st.orders.any (fun y => y.id == u.id)
  · rw [if_pos ha]
    exact find?_id_map_save_self u st.orders ha
  · rw [if_neg ha]
    refine ⟨u, ?_, rfl, rfl⟩
    have h1 : List.find? (fun o => o.id == u.id) st.orders = none := by
      rw [List.find?_eq_none]
      intro o ho hbo
      exact ha (List.any_eq_true.mpr ⟨o, ho, hbo⟩)
    rw [List.find?_append, h1, Option.none_or]
    simp

theorem get_by_id_mem (l : List Order)
    (hnd : l.Pairwise (fun a b => a.id ≠ b.id)) (o : Order) (ho : o ∈ l) :
    (OrderStore.mk l).get_by_id o.id = some o := by
  unfold OrderStore.get_by_id
  induction l with
  | nil => cases ho
  | cons e rest ih =>
      rcases List.mem_cons.mp ho with rfl | hmem
      · simp [List.find?_cons]
      · have hne : (e.id == o.id) = false := by
          have := (List.pairwise_cons.mp hnd).1 o hmem
          simpa using this
        simp only [List.find?_cons, hne]
        exact ih (List.pairwise_cons.mp hnd).2 hmem

theorem sync_order_status_found (broker : BrokerModel) (st : OrderStore)
    (o : Order) (h : st.get_by_id o.id = some o) :
    (sync_order_status broker st o.id).2 = some (refreshOne broker o) ∧
    ((sync_order_status broker st o.id).1 = st ∨
      (sync_order_status broker st o.id).1 = st.save (refreshOne broker o)) := by
  rcases hb : o.broker_order_id with _ | bid
  · exact ⟨by simp [sync_order_status, refreshOne, h, hb],
      Or.inl (by simp [sync_order_status, h, hb])⟩
  · by_cases he : bid = ""
    · exact ⟨by simp [sync_order_status, refreshOne, h, hb, he],
        Or.inl (by simp [sync_order_status, h, hb, he])⟩
    · rcases hq : broker.query_order bid with e | ores
      · exact ⟨by simp [sync_order_status, refreshOne, h, hb, he, hq],
          Or.inl (by simp [sync_order_status, h, hb, he, hq])⟩
      · rcases ores with _ | bo
        · exact ⟨by simp [sync_order_status, refreshOne, h, hb, he, hq],
            Or.inl (by simp [sync_order_status, h, hb, he, hq])⟩
        · exact ⟨by simp [sync_order_status, refreshOne, h, hb, he, hq],
            Or.inr (by simp [sync_order_status, refreshOne, h, hb, he, hq])⟩

theorem syncLoop_refreshes (broker : BrokerModel) (l : List Order) :
    ∀ (st : OrderStore), l.Pairwise (fun a b => a.id ≠ b.id) →
      (∀ o ∈ l, st.get_by_id o.id = some o) →
      (syncLoop broker st l).2 = l.map (refreshOne broker) := by
  induction l with
  | nil => intro st _ _; rfl
  | cons o rest ih =>
      intro st hp hf
      have ho : st.get_by_id o.id = some o := hf o (by simp)
      obtain ⟨h2, h1⟩ := sync_order_status_found broker st o ho
      have hrec : (syncLoop broker (sync_order_status broker st o.id).1 rest).2
          = rest.map (refreshOne broker) := by
        refine ih _ (List.pairwise_cons.mp hp).2 (fun o' ho' => ?_)
        have hne : o'.id ≠ o.id :=
          Ne.symm ((List.pairwise_cons.mp hp).1 o' ho')
        rcases h1 with h1 | h1
        · rw [h1]; exact hf o' (by simp [ho'])
        · rw [h1, get_by_id_save_ne _ _ _ (by rw [refreshOne_id]; exact hne)]
          exact hf o' (by simp [ho'])
      have hsl : syncLoop broker st (o :: rest) =
          (let res := sync_order_status broker st o.id
           let tail := syncLoop broker res.1 rest
           match res.2 with
           | some updated => (tail.1, updated :: tail.2)
           | none => tail) := rfl
      rw [hsl]
      simp only [h2, hrec, List.map_cons]

/-- C2 (amended): a full `sync_all_active_orders` pass (over a store whose
rows have pairwise-distinct ids) returns one order per active
(SUBMITTED/PARTIAL_FILLED) row: each order whose broker query succeeds with
a snapshot is returned refreshed, while an order whose query raises (or
returns nothing, or that has no truthy broker id) is returned unchanged in
its last-known state — per-order failures do not abort the batch, and no
active order is omitted from the returned list. -/
theorem sync_all_active_orders_returns_all (broker : BrokerModel)
    (st : OrderStore) (hnd : st.orders.Pairwise (fun a b => a.id ≠ b.id)) :
    (sync_all_active_orders broker st).2 =
      st.get_active_orders.map (refreshOne broker) := by
  refine syncLoop_refreshes broker st.get_active_orders st
    (hnd.sublist (List.filter_sublist _)) (fun o ho => ?_)
  exact get_by_id_mem st.orders hnd o (List.mem_of_mem_filter ho)

/-- An active (SUBMITTED) order with broker id "b1". -/
def syncOrder1 : Order :=
  { id := 1, symbol := "000001", direction := .BUY, quantity := 100,
    price := none, order_type := .MARKET, status := .SUBMITTED,
    filled_quantity := 0, filled_price := none,
    broker_order_id := some "b1", signal_id := none, error_message := none }

/-- An active (SUBMITTED) order with broker id "b2" — the one whose broker
query raises. -/
def syncOrder2 : Order :=
  { syncOrder1 with id := 2, symbol := "000002", broker_order_id := some "b2" }

/-- An active (SUBMITTED) order with broker id "b3". -/
def syncOrder3 : Order :=
  { syncOrder1 with id := 3, symbol := "000003", broker_order_id := some "b3" }

/-- A store holding the three active orders. -/
def syncStore : OrderStore := ⟨[syncOrder1, syncOrder2, syncOrder3]⟩

/-- A broker whose `query_order` raises for "b2" and reports a full fill
for every other id. -/
def syncBroker : BrokerModel :=
  { submit_order := fun _ => .ok ⟨true, some "b0", none⟩
    cancel_order := fun _ => .ok true
    query_order := fun bid =>
      if bid = "b2" then .error "连接超时"
      else .ok (some { syncOrder1 with
        status := .FILLED
        filled_quantity := 100 })
    get_positions := []
    get_account := richAccount }

/-- C2 (counterexample): over three active orders where the broker query
for the second raises, `sync_all_active_orders` returns all three orders —
the second is returned in its last-known SUBMITTED state rather than being
omitted, contradicting "an order whose broker query raises is omitted from
the returned refreshed set". -/
theorem sync_all_returns_raising_order :
    ((sync_all_active_orders syncBroker syncStore).2).length = 3 ∧
    syncOrder2 ∈ (sync_all_active_orders syncBroker syncStore).2 ∧
    (sync_all_active_orders syncBroker syncStore).2.map Order.status =
      [.FILLED, .SUBMITTED, .FILLED] := by
  refine ⟨rfl, ?_, rfl⟩
  decide

/-- C2 (witness): the amended theorem applied to the three-order store,
whose row ids are pairwise distinct. -/
theorem sync_all_active_orders_returns_all_witness :
    syncStore.orders.Pairwise (fun a b => a.id ≠ b.id) ∧
    (sync_all_active_orders syncBroker syncStore).2 =
      syncStore.get_active_orders.map (refreshOne syncBroker) :=
  ⟨by decide,
   sync_all_active_orders_returns_all syncBroker syncStore (by decide)⟩

/-- `SignalDirection` enum from `models/signal.py`. -/
inductive SignalDirection where
  | BUY
  | SELL
deriving DecidableEq, Repr

/-- `TradingSignal` model from `models/signal.py` (timestamps elided,
ids as `ℕ`). -/
structure TradingSignal where
  id : ℕ
  symbol : String
  name : Option String
  direction : SignalDirection
  target_quantity : ℕ
  target_price : Option ℚ
  target_ratio : Option ℚ
  source : String
  executed : Bool
  order_id : Option ℕ
deriving DecidableEq, Repr

/-- `TradingSignal.mark_executed` (`models/signal.py` lines 47–56):
unconditionally sets `executed = true` and overwrites `order_id`. -/
def TradingSignal.mark_executed (s : TradingSignal) (order_id : ℕ) :
    TradingSignal :=
  { s with executed := true, order_id := some order_id }

/-- `OrderExecutor._create_order_from_signal` (`core/executor.py` lines
110–135): direction mirrors the signal; `order_type` is LIMIT iff
`target_price` is truthy (non-`None` and non-zero), else MARKET; the fresh
uuid4 id is supplied as `new_id`. -/
def create_order_from_signal (signal : TradingSignal) (new_id : ℕ) : Order :=
  { id := new_id
    symbol := signal.symbol
    direction := match signal.direction with
      | .BUY => .BUY
      | .SELL => .SELL
    quantity := signal.target_quantity
    price := signal.target_price
    order_type := if optRatTruthy signal.target_price then .LIMIT else .MARKET
    status := .PENDING
    filled_quantity := 0
    filled_price := none
    broker_order_id := none
    signal_id := some signal.id
    error_message := none }

/-- `OrderExecutor._submit_order` (`core/executor.py` lines 137–151): a
raised broker exception is caught and converted to
`OrderResult(success=False, message=str(e))`. -/
def submit_order_caught (broker : BrokerModel) (order : Order) : OrderResult :=
  match broker.submit_order order with
  | .ok result => result
  | .error e => ⟨false, none, some e⟩

/-- The observable outcome of one `execute_signal` call: the returned order
or raised risk error, the signal object afterwards, the order store
afterwards, the audit-log entries appended (level, order id; the formatted
message text is elided) and the trace of orders submitted to the broker. -/
structure ExecOutcome where
  result : Except RiskError Order
  signal : TradingSignal
  store : OrderStore
  logs : List (String × ℕ)
  submissions : List Order
deriving Repr

/-- `OrderExecutor.execute_signal` (`core/executor.py` lines 56–108):
build the order, resolve account/positions (fetching broker snapshots when
not supplied), risk-check-or-raise, persist, submit (exceptions converted),
then on success link the broker id, move to SUBMITTED, mark the signal
executed and log; on failure move to REJECTED with the failure message and
log; either way persist again and return the order. -/
def execute_signal (broker : BrokerModel) (rm : RiskManager)
    (st : OrderStore) (signal : TradingSignal) (new_id : ℕ)
    (account? : Option Account := none)
    (positions? : Option (List Position) := none) : ExecOutcome :=
  let order := create_order_from_signal signal new_id
  let account := account?.getD broker.get_account
  let positions := positions?.getD broker.get_positions
  match rm.validate_order_or_raise order account positions with
  | some err =>
      { result := .error err, signal := signal, store := st,
        logs := [], submissions := [] }
  | none =>
      let st1 := st.save order
      let result := submit_order_caught broker order
      if result.success then
        let order1 := { order with broker_order_id := result.broker_order_id }
        let order2 := order1.update_status .SUBMITTED
        let signal1 := signal.mark_executed order2.id
        let st2 := st1.save order2
        { result := .ok order2, signal := signal1, store := st2,
          logs := [("INFO", order.id)], submissions := [order] }
      else
        let order2 := order.update_status .REJECTED result.message
        let st2 := st1.save order2
        { result := .ok order2, signal := signal, store := st2,
          logs := [("ERROR", order.id)], submissions := [order] }

/-- The observable outcome of one direct `submit_order` call: the returned
order or the raised `OrderSubmitError` message, the in-memory order object
after the call, and the order store afterwards. -/
structure SubmitOutcome where
  result : Except String Order
  memOrder : Order
  store : OrderStore
deriving Repr

/-- `OrderExecutor.submit_order` (`core/executor.py` lines 153–178): save,
submit (exceptions converted); on success link the broker id, move to
SUBMITTED and save again; on failure move the in-memory order to REJECTED
and raise `OrderSubmitError(result.message or "订单提交失败")` without a
second save. -/
def submit_order_direct (broker : BrokerModel) (st : OrderStore)
    (order : Order) : SubmitOutcome :=
  let st1 := st.save order
  let result := submit_order_caught broker order
  if result.success then
    let order1 := { order with broker_order_id := result.broker_order_id }
    let order2 := order1.update_status .SUBMITTED
    let st2 := st1.save order2
    { result := .ok order2, memOrder := order2, store := st2 }
  else
    let order2 := order.update_status .REJECTED result.message
    { result := .error
        (if optStrTruthy result.message then result.message.getD ""
         else "订单提交失败"),
      memOrder := order2, store := st1 }

/-- An empty order store. -/
def emptyStore : OrderStore := ⟨[]⟩

/-- A price-less BUY signal for 1000 shares (Scenario D), not yet executed. -/
def sigMarket : TradingSignal :=
  { id := 10, symbol := "000004", name := none, direction := .BUY,
    target_quantity := 1000, target_price := none, target_ratio := none,
    source := "manual", executed := false, order_id := none }

/-- A broker whose submission is rejected with a message. -/
def failBroker : BrokerModel :=
  { submit_order := fun _ => .ok ⟨false, none, some "资金不足"⟩
    cancel_order := fun _ => .ok true
    query_order := fun _ => .ok none
    get_positions := []
    get_account := richAccount }

/-- A broker whose submission succeeds with broker id "B77". -/
def okBroker : BrokerModel :=
  { failBroker with submit_order := fun _ => .ok ⟨true, some "B77", none⟩ }

/-- C4: a signal without a target price yields a MARKET order; when the
broker submission fails (a non-successful result, or an exception already
converted by `_submit_order`), `execute_signal` returns that order with
status REJECTED, stores the (truthy) failure message on it, and leaves the
signal object untouched — in particular still `executed = false`. -/
theorem execute_signal_market_and_reject (broker : BrokerModel)
    (rm : RiskManager) (st : OrderStore) (signal : TradingSignal)
    (new_id : ℕ) (account? : Option Account)
    (positions? : Option (List Position))
    (hprice : signal.target_price = none)
    (hrisk : rm.validate_order_or_raise (create_order_from_signal signal new_id)
        (account?.getD broker.get_account)
        (positions?.getD broker.get_positions) = none)
    (hfail : (submit_order_caught broker
        (create_order_from_signal signal new_id)).success = false) :
    (create_order_from_signal signal new_id).order_type = .MARKET ∧
    ∃ o, (execute_signal broker rm st signal new_id account? positions?).result
        = .ok o ∧
      o.status = .REJECTED ∧
      (∀ m, (submit_order_caught broker
          (create_order_from_signal signal new_id)).message = some m →
        m ≠ "" → o.error_message = some m) ∧
      (execute_signal broker rm st signal new_id account? positions?).signal
        = signal := by
  refine ⟨by simp [create_order_from_signal, hprice, optRatTruthy], ?_⟩
  unfold execute_signal
  simp only [hrisk, hfail, Bool.false_eq_true, if_false]
  refine ⟨_, by trivial, by trivial, ?_, by trivial⟩
  intro m hm hne
  simp only [Order.update_status, hm]
  simp [optStrTruthy, hne]

/-- C4 (witness): the theorem applied to the Scenario-D signal
(no target price, quantity 1000), risk disabled, and a broker rejecting
with message "资金不足". -/
theorem execute_signal_market_and_reject_witness :
    sigMarket.target_price = none ∧
    rmDisabled.validate_order_or_raise (create_order_from_signal sigMarket 20)
      ((none : Option Account).getD failBroker.get_account)
      ((none : Option (List Position)).getD failBroker.get_positions) = none ∧
    (submit_order_caught failBroker
      (create_order_from_signal sigMarket 20)).success = false ∧
    (create_order_from_signal sigMarket 20).order_type = .MARKET ∧
    ∃ o, (execute_signal failBroker rmDisabled emptyStore sigMarket 20).result
        = .ok o ∧
      o.status = .REJECTED ∧ o.error_message = some "资金不足" ∧
      (execute_signal failBroker rmDisabled emptyStore sigMarket 20).signal
        = sigMarket ∧
      (execute_signal failBroker rmDisabled emptyStore sigMarket 20).signal.executed
        = false := by
  obtain ⟨hmk, o, hres, hst, hmsg, hsig⟩ :=
    execute_signal_market_and_reject failBroker rmDisabled emptyStore
      sigMarket 20 none none rfl rfl rfl
  exact ⟨rfl, rfl, rfl, hmk, o, hres, hst,
    hmsg "资金不足" rfl (by decide), hsig, by rw [hsig]; rfl⟩

/-- C5: when the risk validation of the built order fails,
`execute_signal` propagates the typed risk error, the order store is
unchanged (no order persisted) and no broker submission was attempted. -/
theorem execute_signal_risk_failure_no_effects (broker : BrokerModel)
    (rm : RiskManager) (st : OrderStore) (signal : TradingSignal)
    (new_id : ℕ) (account? : Option Account)
    (positions? : Option (List Position)) (err : RiskError)
    (hrisk : rm.validate_order_or_raise (create_order_from_signal signal new_id)
        (account?.getD broker.get_account)
        (positions?.getD broker.get_positions) = some err) :
    (execute_signal broker rm st signal new_id account? positions?).result
      = .error err ∧
    (execute_signal broker rm st signal new_id account? positions?).store
      = st ∧
    (execute_signal broker rm st signal new_id account? positions?).submissions
      = [] := by
  unfold execute_signal
  simp only [hrisk]
  exact ⟨by trivial, by trivial, by trivial⟩

/-- A BUY signal priced at 200 for 1000 shares — its order notional 200000
exceeds the default 100000 `max_order_amount`. -/
def sigOverLimit : TradingSignal :=
  { sigMarket with id := 11, target_price := some 200 }

/-- C5 (witness): the theorem applied to the over-limit priced signal under
the default (enabled) risk configuration: the order-amount rule fails, the
generic risk-control error propagates, and nothing is stored or
submitted. -/
theorem execute_signal_risk_failure_no_effects_witness :
    rmDefault.validate_order_or_raise (create_order_from_signal sigOverLimit 21)
      ((none : Option Account).getD failBroker.get_account)
      ((none : Option (List Position)).getD failBroker.get_positions)
      = some (.RiskControlError "单笔交易金额超过限制" "order_amount") ∧
    (execute_signal failBroker rmDefault emptyStore sigOverLimit 21).result
      = .error (.RiskControlError "单笔交易金额超过限制" "order_amount") ∧
    (execute_signal failBroker rmDefault emptyStore sigOverLimit 21).store
      = emptyStore ∧
    (execute_signal failBroker rmDefault emptyStore sigOverLimit 21).submissions
      = [] := by
  have hv : rmDefault.validate_order_or_raise
      (create_order_from_signal sigOverLimit 21)
      ((none : Option Account).getD failBroker.get_account)
      ((none : Option (List Position)).getD failBroker.get_positions)
      = some (.RiskControlError "单笔交易金额超过限制" "order_amount") := by
    norm_num [RiskManager.validate_order_or_raise, RiskManager.check_order,
      RiskManager.check_order_amount, RiskManager.check_position_limit,
      RiskManager.check_holdings_limit, RiskManager.check_daily_loss,
      create_order_from_signal, sigOverLimit, sigMarket, rmDefault,
      defaultRiskConfig, failBroker, richAccount, List.find?, optRatTruthy]
    decide
  obtain ⟨h1, h2, h3⟩ := execute_signal_risk_failure_no_effects failBroker
    rmDefault emptyStore sigOverLimit 21 none none _ hv
  exact ⟨hv, h1, h2, h3⟩

/-- An already-executed signal linked to order 1. -/
def sigExecuted : TradingSignal :=
  { sigMarket with id := 12, executed := true, order_id := some 1 }

/-- C8 (counterexample): `execute_signal` does not guard against
already-executed signals — run on a signal with `executed = true` and
`order_id = 1`, a successful submission calls `mark_executed` again and
overwrites the linked order id with the new order's id 99. -/
theorem executed_signal_order_id_overwritten :
    sigExecuted.executed = true ∧
    sigExecuted.order_id = some 1 ∧
    (execute_signal okBroker rmDisabled emptyStore sigExecuted 99).signal.order_id
      = some 99 ∧
    (execute_signal okBroker rmDisabled emptyStore sigExecuted 99).signal.executed
      = true := by
  exact ⟨rfl, rfl, rfl, rfl⟩

/-- C8 (amended): `mark_executed` (the only core operation that writes
`order_id`) is an unconditional setter: it sets `executed = true` and
overwrites `order_id` with its argument even when the signal is already
executed, so the linked order id is immutable only as long as
`mark_executed` is not invoked again (e.g. by re-executing the signal). -/
theorem mark_executed_overwrites (s : TradingSignal) (order_id : ℕ) :
    (s.mark_executed order_id).executed = true ∧
    (s.mark_executed order_id).order_id = some order_id :=
  ⟨rfl, rfl⟩

/-- C10: on a non-successful broker result the direct-submission path
`submit_order` marks the in-memory order REJECTED and raises before any
second save, so the stored record keeps the order's pre-submission status;
whereas `execute_signal` on the same kind of failure persists the REJECTED
order before returning. -/
theorem submit_order_reject_not_persisted :
    (∀ (broker : BrokerModel) (st : OrderStore) (order : Order),
      (submit_order_caught broker order).success = false →
      (∃ e, (submit_order_direct broker st order).result = .error e) ∧
      (submit_order_direct broker st order).memOrder.status = .REJECTED ∧
      (submit_order_direct broker st order).store = st.save order ∧
      ∃ r, (submit_order_direct broker st order).store.get_by_id order.id
          = some r ∧ r.status = order.status) ∧
    (∀ (broker : BrokerModel) (rm : RiskManager) (st : OrderStore)
        (signal : TradingSignal) (new_id : ℕ),
      rm.validate_order_or_raise (create_order_from_signal signal new_id)
        broker.get_account broker.get_positions = none →
      (submit_order_caught broker
        (create_order_from_signal signal new_id)).success = false →
      ∃ r, (execute_signal broker rm st signal new_id).store.get_by_id new_id
          = some r ∧ r.status = .REJECTED) := by
  constructor
  · intro broker st order hfail
    unfold submit_order_direct
    simp only [hfail, Bool.false_eq_true, if_false]
    refine ⟨⟨_, by trivial⟩, by trivial, by trivial, ?_⟩
    obtain ⟨r, hr, hs, _⟩ := get_by_id_save_self st order
    exact ⟨r, hr, hs⟩
  · intro broker rm st signal new_id hrisk hfail
    unfold execute_signal
    simp only [Option.getD_none, hrisk, hfail, Bool.false_eq_true, if_false]
    obtain ⟨r, hr, hs, _⟩ :=
      get_by_id_save_self
        (st.save (create_order_from_signal signal new_id))
        ((create_order_from_signal signal new_id).update_status .REJECTED
          (submit_order_caught broker
            (create_order_from_signal signal new_id)).message)
    exact ⟨r, hr, hs⟩

/-- A PENDING order that never reached the broker. -/
def pendingOrder : Order :=
  { syncOrder1 with id := 7, status := .PENDING, broker_order_id := none }

/-- C10 (witness): the theorem applied to a rejecting broker — the direct
path keeps PENDING in the store while raising, and `execute_signal` stores
a REJECTED record. -/
theorem submit_order_reject_not_persisted_witness :
    (submit_order_caught failBroker pendingOrder).success = false ∧
    (∃ e, (submit_order_direct failBroker emptyStore pendingOrder).result
      = .error e) ∧
    (submit_order_direct failBroker emptyStore pendingOrder).memOrder.status
      = .REJECTED ∧
    (∃ r, (submit_order_direct failBroker emptyStore pendingOrder).store.get_by_id 7
      = some r ∧ r.status = .PENDING) ∧
    (∃ r, (execute_signal failBroker rmDisabled emptyStore sigMarket 31).store.get_by_id 31
      = some r ∧ r.status = .REJECTED) := by
  obtain ⟨hA1, hA2, _, hA4⟩ :=
    submit_order_reject_not_persisted.1 failBroker emptyStore pendingOrder rfl
  obtain ⟨r, hr, hs⟩ := hA4
  obtain ⟨r2, hr2, hs2⟩ :=
    submit_order_reject_not_persisted.2 failBroker rmDisabled emptyStore
      sigMarket 31 rfl rfl
  exact ⟨rfl, hA1, hA2, ⟨r, hr, hs⟩, ⟨r2, hr2, hs2⟩⟩

end QuantEngine
